import Mathlib

/-!
Shallow embedding of the scan-analysis pipeline of this repository
(`server.py` and `backend/server.py`): the demo heuristic classifier
`predict_ai`, the SQLite-backed patient store (`init_db`/`save` plus the
`/history` and record-lookup reads), the heatmap overlay `make_heatmap`,
the advisory call `ai_medical_report`, and the `/predict` orchestration of
both variants.  Python floats are modelled as rationals, the random source
as explicit uniform draws in `[0,1)`, and the HTTP/SQLite/OpenCV
collaborators at their interface boundaries.
-/

namespace My

/- ===== String constants of the source ===== -/

/-- Label string used by `predict_ai`. -/
def normalLabel : String := "Normal"

/-- Label string used by `predict_ai`. -/
def benignLabel : String := "Benign"

/-- Label string used by `predict_ai`. -/
def malignantLabel : String := "Malignant"

/-- Error body value for a request without a file part. -/
def errNoFile : String := "No file"

/-- Error body value when `cv2.imread` yields no image. -/
def errInvalidImage : String := "Invalid Image"

/-- Error body value of the catch-all exception handler. -/
def errFailed : String := "Failed"

/-- Default patient name when the form field is absent. -/
def unknownName : String := "Unknown"

/-- Report template head, `"Lung Status : " + result`. -/
def lungStatusHead : String := "Lung Status : "

/-- Static treatment recommendation in the `/predict` response. -/
def treatmentText : String := "Consult Pulmonologist"

/-- Static lifestyle recommendation in the `/predict` response. -/
def lifestyleText : String := "No Smoking, Exercise"

/-- Heatmap file name head, `"heat_" + fname`. -/
def heatHead : String := "heat_"

/-- Upload directory head of the stored image path. -/
def uploadHead : String := "uploads/"

/-- Fallback of `ai_medical_report` when no API key is configured. -/
def keyMissingMsg : String := "AI API Key not configured."

/-- Fallback of `ai_medical_report` on a non-200 HTTP status. -/
def aiUnavailableMsg : String := "AI Doctor temporarily unavailable."

/-- Fallback of `ai_medical_report` on a raised exception (network failure,
timeout, or malformed response body during extraction). -/
def aiErrorMsg : String := "AI Doctor service error."

/- ===== Demo heuristic classifier (`predict_ai`) ===== -/

/-- Label draw of `random.choices(classes, weights=[0.5,0.3,0.2])`:
CPython forms cumulative weights `[0.5, 0.8, 1.0]`, multiplies a uniform
draw `u ∈ [0,1)` by the total `1.0` and bisects, so `u < 0.5` yields
`Normal`, `0.5 ≤ u < 0.8` yields `Benign`, and otherwise `Malignant`. -/
def chooseClass (u : ℚ) : String :=
  if u < 1/2 then normalLabel
  else if u < 4/5 then benignLabel
  else malignantLabel

/-- CPython `random.uniform(a, b) = a + (b - a) * random()` with the
uniform draw `u ∈ [0,1)` made explicit. -/
def pyUniform (a b u : ℚ) : ℚ := a + (b - a) * u

/-- Round-half-to-even to the nearest integer, the rounding CPython
`round` applies to the exact value of its float argument. -/
def rhalfeven (q : ℚ) : ℤ :=
  if q - ⌊q⌋ < 1/2 then ⌊q⌋
  else if 1/2 < q - ⌊q⌋ then ⌊q⌋ + 1
  else if ⌊q⌋ % 2 = 0 then ⌊q⌋ else ⌊q⌋ + 1

/-- CPython `round(q, 2)`: round half-to-even at two decimal digits. -/
def round2 (q : ℚ) : ℚ := (rhalfeven (q * 100) : ℚ) / 100

/-- Confidence branch of `predict_ai`: the label-dependent
`random.uniform` interval of the if/elif/else ladder. -/
def confFor (result : String) (u2 : ℚ) : ℚ :=
  if result = normalLabel then pyUniform (7/10) (19/20) u2
  else if result = benignLabel then pyUniform (3/5) (17/20) u2
  else pyUniform (3/4) (49/50) u2

/-- The demo heuristic classifier `predict_ai` of both server variants,
with its two consumed pseudo-random draws `u1` (label choice) and `u2`
(confidence) made explicit.  It reads no image data. -/
def predict_ai (u1 u2 : ℚ) : String × ℚ :=
  (chooseClass u1, round2 (confFor (chooseClass u1) u2))

/- ===== Patient store (SQLite `patients` table) ===== -/

/-- One row of the `patients` table created by `init_db`. -/
structure PatientRecord where
  id : ℕ
  name : String
  date : String
  result : String
  confidence : ℚ
  image : String
  report : String
deriving DecidableEq

/-- The `patients` table: its rows in rowid order together with the next
`AUTOINCREMENT` id (SQLite starts at 1 and never reuses an id). -/
structure DB where
  records : List PatientRecord
  nextId : ℕ
deriving DecidableEq

/-- Freshly created database, as after `init_db` on a new file. -/
def DB.empty : DB := ⟨[], 1⟩

/-- The `save` helper: `INSERT INTO patients VALUES(NULL,...)` assigns the
next autoincrement id and appends the row; no existing row is touched. -/
def save (db : DB) (name now res : String) (conf : ℚ) (img rep : String) : DB :=
  ⟨db.records ++ [⟨db.nextId, name, now, res, conf, img, rep⟩], db.nextId + 1⟩

/-- The `/history` read: `SELECT * FROM patients` in rowid order. -/
def list_all (db : DB) : List PatientRecord := db.records

/-- The by-id lookup `SELECT * FROM patients WHERE id=?` / `fetchone`. -/
def getRecord (db : DB) (pid : ℕ) : Option PatientRecord :=
  db.records.find? (fun r => r.id == pid)

/-- The history query of the backend `/predict` route:
`SELECT date,result FROM patients WHERE name=?` in rowid order. -/
def query_by_name (db : DB) (n : String) : List (String × String) :=
  (db.records.filter (fun r => r.name == n)).map (fun r => (r.date, r.result))

/-- Argument tuple of one `save` call. -/
structure SaveArgs where
  name : String
  now : String
  result : String
  conf : ℚ
  image : String
  report : String
deriving DecidableEq

/-- Uncurried `save`. -/
def save1 (db : DB) (a : SaveArgs) : DB :=
  save db a.name a.now a.result a.conf a.image a.report

/-- N successive `save` calls (SQLite serialises concurrent inserts). -/
def appendMany (db : DB) (xs : List SaveArgs) : DB := xs.foldl save1 db

/-- Invariant of the `patients` table: the autoincrement counter is at
least 1 and strictly above every assigned id, and ids strictly increase
in rowid order. -/
def DBinv (db : DB) : Prop :=
  1 ≤ db.nextId ∧ (∀ r ∈ db.records, 1 ≤ r.id ∧ r.id < db.nextId)
    ∧ db.records.Pairwise (fun a b => a.id < b.id)

instance (db : DB) : Decidable (DBinv db) := by
  unfold DBinv; infer_instance

/- ===== Lemmas about rounding and the uniform draw ===== -/

theorem rhalfeven_bounds (q : ℚ) : ⌊q⌋ ≤ rhalfeven q ∧ rhalfeven q ≤ ⌊q⌋ + 1 := by
  unfold rhalfeven
  split_ifs <;> omega

theorem rhalfeven_ge (n : ℤ) (q : ℚ) (h : (n : ℚ) ≤ q) : n ≤ rhalfeven q :=
  le_trans (Int.le_floor.mpr h) (rhalfeven_bounds q).1

theorem rhalfeven_le (n : ℤ) (q : ℚ) (h : q < (n : ℚ)) : rhalfeven q ≤ n := by
  have hf : ⌊q⌋ < n := Int.floor_lt.mpr h
  have := (rhalfeven_bounds q).2
  omega

theorem round2_bounds (lo hi : ℤ) (q : ℚ) (h1 : (lo : ℚ)/100 ≤ q)
    (h2 : q < (hi : ℚ)/100) : (lo : ℚ)/100 ≤ round2 q ∧ round2 q ≤ (hi : ℚ)/100 := by
  have hlo : (lo : ℚ) ≤ q * 100 := by linarith
  have hhi : q * 100 < (hi : ℚ) := by linarith
  have g1 : lo ≤ rhalfeven (q * 100) := rhalfeven_ge lo (q * 100) hlo
  have g2 : rhalfeven (q * 100) ≤ hi := rhalfeven_le hi (q * 100) hhi
  have c1 : (lo : ℚ) ≤ (rhalfeven (q * 100) : ℚ) := by exact_mod_cast g1
  have c2 : (rhalfeven (q * 100) : ℚ) ≤ (hi : ℚ) := by exact_mod_cast g2
  unfold round2
  constructor <;> linarith

theorem pyUniform_mem (a b u : ℚ) (hab : a < b) (h0 : 0 ≤ u) (h1 : u < 1) :
    a ≤ pyUniform a b u ∧ pyUniform a b u < b := by
  unfold pyUniform
  constructor
  · nlinarith
  · nlinarith

theorem chooseClass_lt (u : ℚ) (h : u < 1/2) : chooseClass u = normalLabel := by
  unfold chooseClass
  rw [if_pos h]

theorem chooseClass_mid (u : ℚ) (h1 : ¬ u < 1/2) (h2 : u < 4/5) :
    chooseClass u = benignLabel := by
  unfold chooseClass
  rw [if_neg h1, if_pos h2]

theorem chooseClass_ge (u : ℚ) (h1 : ¬ u < 1/2) (h2 : ¬ u < 4/5) :
    chooseClass u = malignantLabel := by
  unfold chooseClass
  rw [if_neg h1, if_neg h2]

theorem predict_ai_eval_normal (u1 u2 : ℚ) (hN : u1 < 1/2) :
    predict_ai u1 u2 = (normalLabel, round2 (pyUniform (7/10) (19/20) u2)) := by
  unfold predict_ai confFor
  rw [chooseClass_lt u1 hN, if_pos rfl]

theorem predict_ai_eval_benign (u1 u2 : ℚ) (hN : ¬ u1 < 1/2) (hB : u1 < 4/5) :
    predict_ai u1 u2 = (benignLabel, round2 (pyUniform (3/5) (17/20) u2)) := by
  unfold predict_ai confFor
  rw [chooseClass_mid u1 hN hB, if_neg (by decide), if_pos rfl]

theorem predict_ai_eval_malignant (u1 u2 : ℚ) (hN : ¬ u1 < 1/2) (hB : ¬ u1 < 4/5) :
    predict_ai u1 u2 = (malignantLabel, round2 (pyUniform (3/4) (49/50) u2)) := by
  unfold predict_ai confFor
  rw [chooseClass_ge u1 hN hB, if_neg (by decide), if_neg (by decide)]

/-- C1: the demo heuristic classifier draws its label from the fixed set
by the cumulative-weight thresholds 0.5 and 0.8 (weights 0.5/0.3/0.2),
and for every random-source state the returned confidence, rounded to two
decimals, lies inside the closed interval bound to the returned label
(`Normal → [0.70,0.95]`, `Benign → [0.60,0.85]`, `Malignant → [0.75,0.98]`). -/
theorem predict_ai_label_and_confidence (u1 u2 : ℚ)
    (h1 : 0 ≤ u1) (h2 : u1 < 1) (h3 : 0 ≤ u2) (h4 : u2 < 1) :
    ((predict_ai u1 u2).1 = normalLabel ∨ (predict_ai u1 u2).1 = benignLabel
        ∨ (predict_ai u1 u2).1 = malignantLabel)
    ∧ ((predict_ai u1 u2).1 = normalLabel ↔ u1 < 1/2)
    ∧ ((predict_ai u1 u2).1 = benignLabel ↔ (1/2 ≤ u1 ∧ u1 < 4/5))
    ∧ ((predict_ai u1 u2).1 = malignantLabel ↔ 4/5 ≤ u1)
    ∧ ((predict_ai u1 u2).1 = normalLabel →
        7/10 ≤ (predict_ai u1 u2).2 ∧ (predict_ai u1 u2).2 ≤ 19/20)
    ∧ ((predict_ai u1 u2).1 = benignLabel →
        3/5 ≤ (predict_ai u1 u2).2 ∧ (predict_ai u1 u2).2 ≤ 17/20)
    ∧ ((predict_ai u1 u2).1 = malignantLabel →
        3/4 ≤ (predict_ai u1 u2).2 ∧ (predict_ai u1 u2).2 ≤ 49/50) := by
  have hval : ∀ lo hi : ℤ, (lo : ℚ)/100 < (hi : ℚ)/100 →
      (lo : ℚ)/100 ≤ round2 (pyUniform ((lo : ℚ)/100) ((hi : ℚ)/100) u2)
      ∧ round2 (pyUniform ((lo : ℚ)/100) ((hi : ℚ)/100) u2) ≤ (hi : ℚ)/100 := by
    intro lo hi hlt
    have hm := pyUniform_mem ((lo : ℚ)/100) ((hi : ℚ)/100) u2 hlt h3 h4
    exact round2_bounds lo hi _ hm.1 hm.2
  by_cases hN : u1 < 1/2
  · have heq := predict_ai_eval_normal u1 u2 hN
    have hl : (predict_ai u1 u2).1 = normalLabel := by rw [heq]
    have hc : (predict_ai u1 u2).2 = round2 (pyUniform (7/10) (19/20) u2) := by rw [heq]
    have h70 : ((70 : ℤ) : ℚ)/100 = 7/10 := by norm_num
    have h95 : ((95 : ℤ) : ℚ)/100 = 19/20 := by norm_num
    have hb := hval 70 95 (by norm_num)
    rw [h70, h95] at hb
    refine ⟨Or.inl hl, ⟨fun _ => hN, fun _ => hl⟩, ?_, ?_,
      fun _ => by rw [hc]; exact hb, ?_, ?_⟩
    · constructor
      · intro h; exact absurd (hl.symm.trans h) (by decide)
      · intro h; linarith [h.1]
    · constructor
      · intro h; exact absurd (hl.symm.trans h) (by decide)
      · intro h; linarith
    · intro h; exact absurd (hl.symm.trans h) (by decide)
    · intro h; exact absurd (hl.symm.trans h) (by decide)
  · by_cases hB : u1 < 4/5
    · have heq := predict_ai_eval_benign u1 u2 hN hB
      have hl : (predict_ai u1 u2).1 = benignLabel := by rw [heq]
      have hc : (predict_ai u1 u2).2 = round2 (pyUniform (3/5) (17/20) u2) := by rw [heq]
      have h60 : ((60 : ℤ) : ℚ)/100 = 3/5 := by norm_num
      have h85 : ((85 : ℤ) : ℚ)/100 = 17/20 := by norm_num
      have hb := hval 60 85 (by norm_num)
      rw [h60, h85] at hb
      refine ⟨Or.inr (Or.inl hl), ?_,
        ⟨fun _ => ⟨le_of_not_lt hN, hB⟩, fun _ => hl⟩, ?_, ?_,
        fun _ => by rw [hc]; exact hb, ?_⟩
      · constructor
        · intro h; exact absurd (hl.symm.trans h) (by decide)
        · intro h; exact absurd h hN
      · constructor
        · intro h; exact absurd (hl.symm.trans h) (by decide)
        · intro h; linarith
      · intro h; exact absurd (hl.symm.trans h) (by decide)
      · intro h; exact absurd (hl.symm.trans h) (by decide)
    · have heq := predict_ai_eval_malignant u1 u2 hN hB
      have hl : (predict_ai u1 u2).1 = malignantLabel := by rw [heq]
      have hc : (predict_ai u1 u2).2 = round2 (pyUniform (3/4) (49/50) u2) := by rw [heq]
      have h75 : ((75 : ℤ) : ℚ)/100 = 3/4 := by norm_num
      have h98 : ((98 : ℤ) : ℚ)/100 = 49/50 := by norm_num
      have hb := hval 75 98 (by norm_num)
      rw [h75, h98] at hb
      refine ⟨Or.inr (Or.inr hl), ?_, ?_,
        ⟨fun _ => le_of_not_lt hB, fun _ => hl⟩, ?_, ?_,
        fun _ => by rw [hc]; exact hb⟩
      · constructor
        · intro h; exact absurd (hl.symm.trans h) (by decide)
        · intro h; exact absurd h hN
      · constructor
        · intro h; exact absurd (hl.symm.trans h) (by decide)
        · intro h; exact absurd h.2 hB
      · intro h; exact absurd (hl.symm.trans h) (by decide)
      · intro h; exact absurd (hl.symm.trans h) (by decide)

/-- Witness for C1 at the concrete random state `u1 = 0`, `u2 = 0`. -/
theorem predict_ai_label_and_confidence_witness :
    ((0 : ℚ) ≤ 0 ∧ (0 : ℚ) < 1)
    ∧ (((predict_ai 0 0).1 = normalLabel ∨ (predict_ai 0 0).1 = benignLabel
          ∨ (predict_ai 0 0).1 = malignantLabel)
        ∧ ((predict_ai 0 0).1 = normalLabel ↔ (0 : ℚ) < 1/2)
        ∧ ((predict_ai 0 0).1 = benignLabel ↔ (1/2 ≤ (0 : ℚ) ∧ (0 : ℚ) < 4/5))
        ∧ ((predict_ai 0 0).1 = malignantLabel ↔ 4/5 ≤ (0 : ℚ))
        ∧ ((predict_ai 0 0).1 = normalLabel →
            7/10 ≤ (predict_ai 0 0).2 ∧ (predict_ai 0 0).2 ≤ 19/20)
        ∧ ((predict_ai 0 0).1 = benignLabel →
            3/5 ≤ (predict_ai 0 0).2 ∧ (predict_ai 0 0).2 ≤ 17/20)
        ∧ ((predict_ai 0 0).1 = malignantLabel →
            3/4 ≤ (predict_ai 0 0).2 ∧ (predict_ai 0 0).2 ≤ 49/50)) :=
  ⟨⟨by norm_num, by norm_num⟩,
    predict_ai_label_and_confidence 0 0 (by norm_num) (by norm_num)
      (by norm_num) (by norm_num)⟩

/- ===== Store lemmas ===== -/

theorem appendMany_cons (db : DB) (a : SaveArgs) (t : List SaveArgs) :
    appendMany db (a :: t) = appendMany (save1 db a) t := rfl

theorem save1_records (db : DB) (a : SaveArgs) :
    (save1 db a).records
      = db.records ++ [⟨db.nextId, a.name, a.now, a.result, a.conf, a.image, a.report⟩] := rfl

theorem appendMany_records_length (xs : List SaveArgs) : ∀ db : DB,
    (appendMany db xs).records.length = db.records.length + xs.length := by
  induction xs with
  | nil => intro db; rfl
  | cons a t ih =>
      intro db
      rw [appendMany_cons, ih, save1_records]
      simp
      omega

/-- C7: `save` assigns the fresh autoincrement id (at least 1, distinct
from every previously assigned id), only appends — every existing row
survives unchanged and ids stay pairwise distinct — and the exposed reads
mutate nothing, so N appends grow `list_all()` by exactly N records (and
from an empty store yield exactly N records). -/
theorem history_store_append_only (db : DB) (a : SaveArgs) (xs : List SaveArgs)
    (h : DBinv db) :
    DBinv (save1 db a)
    ∧ (save1 db a).records
        = db.records ++ [⟨db.nextId, a.name, a.now, a.result, a.conf, a.image, a.report⟩]
    ∧ 1 ≤ db.nextId
    ∧ (∀ r ∈ db.records, r.id ≠ db.nextId)
    ∧ (∀ r ∈ db.records, r ∈ (save1 db a).records)
    ∧ ((save1 db a).records.map (fun r => r.id)).Nodup
    ∧ (list_all (appendMany db xs)).length = (list_all db).length + xs.length
    ∧ (list_all (appendMany DB.empty xs)).length = xs.length := by
  obtain ⟨h1, h2, h3⟩ := h
  have hfresh : ∀ r ∈ db.records, r.id ≠ db.nextId := by
    intro r hr
    exact Nat.ne_of_lt (h2 r hr).2
  have hpw : (save1 db a).records.Pairwise (fun x y => x.id < y.id) := by
    rw [save1_records]
    refine List.pairwise_append.mpr ⟨h3, List.pairwise_singleton _ _, ?_⟩
    intro x hx y hy
    rw [List.mem_singleton] at hy
    rw [hy]
    exact (h2 x hx).2
  have hinv : DBinv (save1 db a) := by
    refine ⟨?_, ?_, hpw⟩
    · show 1 ≤ db.nextId + 1
      omega
    · intro r hr
      rw [save1_records, List.mem_append] at hr
      rcases hr with hr | hr
      · have hlt := (h2 r hr).2
        exact ⟨(h2 r hr).1, by show r.id < db.nextId + 1; omega⟩
      · rw [List.mem_singleton] at hr
        rw [hr]
        exact ⟨h1, Nat.lt_succ_self _⟩
  refine ⟨hinv, save1_records db a, h1, hfresh, ?_, ?_, ?_, ?_⟩
  · intro r hr
    rw [save1_records, List.mem_append]
    exact Or.inl hr
  · exact List.pairwise_map.mpr (hpw.imp fun hlt => Nat.ne_of_lt hlt)
  · exact appendMany_records_length xs db
  · have hlen := appendMany_records_length xs DB.empty
    have hz : DB.empty.records.length = 0 := rfl
    unfold list_all
    omega

/-- Witness for C7 at a concrete store, append and batch. -/
theorem history_store_append_only_witness :
    DBinv DB.empty
    ∧ (DBinv (save1 DB.empty ⟨"A", "d", "Normal", 1/2, "i", "r"⟩)
       ∧ (save1 DB.empty ⟨"A", "d", "Normal", 1/2, "i", "r"⟩).records
           = DB.empty.records ++ [⟨DB.empty.nextId, "A", "d", "Normal", 1/2, "i", "r"⟩]
       ∧ 1 ≤ DB.empty.nextId
       ∧ (∀ r ∈ DB.empty.records, r.id ≠ DB.empty.nextId)
       ∧ (∀ r ∈ DB.empty.records, r ∈ (save1 DB.empty ⟨"A", "d", "Normal", 1/2, "i", "r"⟩).records)
       ∧ ((save1 DB.empty ⟨"A", "d", "Normal", 1/2, "i", "r"⟩).records.map (fun r => r.id)).Nodup
       ∧ (list_all (appendMany DB.empty [⟨"B", "e", "Benign", 3/4, "j", "s"⟩])).length
           = (list_all DB.empty).length + 1
       ∧ (list_all (appendMany DB.empty [⟨"B", "e", "Benign", 3/4, "j", "s"⟩])).length = 1) :=
  ⟨by decide,
    history_store_append_only DB.empty ⟨"A", "d", "Normal", 1/2, "i", "r"⟩
      [⟨"B", "e", "Benign", 3/4, "j", "s"⟩] (by decide)⟩

/-- C8: a record written via `save` and then fetched by its assigned id
returns field-for-field exactly the stored data — name, timestamp, result
label, confidence, image reference and report are unchanged. -/
theorem saved_record_roundtrip (db : DB) (a : SaveArgs) (h : DBinv db) :
    getRecord (save1 db a) db.nextId
      = some ⟨db.nextId, a.name, a.now, a.result, a.conf, a.image, a.report⟩ := by
  obtain ⟨h1, h2, h3⟩ := h
  unfold getRecord
  rw [save1_records, List.find?_append]
  have hnone : db.records.find? (fun r => r.id == db.nextId) = none := by
    rw [List.find?_eq_none]
    intro r hr
    simp only [beq_iff_eq]
    exact Nat.ne_of_lt (h2 r hr).2
  rw [hnone]
  simp

/-- Witness for C8 at a concrete store and append. -/
theorem saved_record_roundtrip_witness :
    DBinv DB.empty
    ∧ getRecord (save1 DB.empty ⟨"A", "d", "Normal", 1/2, "i", "r"⟩) DB.empty.nextId
        = some ⟨DB.empty.nextId, "A", "d", "Normal", 1/2, "i", "r"⟩ :=
  ⟨by decide, saved_record_roundtrip DB.empty ⟨"A", "d", "Normal", 1/2, "i", "r"⟩ (by decide)⟩

/- ===== JSON-ish response model and the two `/predict` routes ===== -/

/-- Pixel of a decoded image: a BGR byte triple, as `cv2.imread` yields. -/
abbrev Pixel := ℕ × ℕ × ℕ

/-- Decoded image: rows of BGR pixels. -/
abbrev Img := List (List Pixel)

/-- JSON value occurring in a `/predict` or `/history` body. -/
inductive JVal where
  | s : String → JVal
  | q : ℚ → JVal
deriving DecidableEq

/-- JSON object as an ordered key/value list, as `jsonify` receives it. -/
abbrev JObj := List (String × JVal)

/-- HTTP response: status code plus JSON body. -/
structure Resp where
  status : ℕ
  body : JObj
deriving DecidableEq

/-- Empty string (Python falsy, like an unset env var). -/
def emptyStr : String := ""

/-- Body key. -/
def errorKey : String := "error"

/-- Body key. -/
def detailsKey : String := "details"

/-- Body key. -/
def predictionKey : String := "prediction"

/-- Body key. -/
def confidenceKey : String := "confidence"

/-- Body key. -/
def reportKey : String := "report"

/-- Body key. -/
def treatmentKey : String := "treatment"

/-- Body key. -/
def lifestyleKey : String := "lifestyle"

/-- Body key. -/
def heatmapKey : String := "heatmap"

/-- Body key of the backend advisory narrative. -/
def aiDoctorKey : String := "ai_doctor"

/-- Error body `jsonify({"error": msg})`. -/
def errBody (msg : String) : JObj := [(errorKey, JVal.s msg)]

/-- Outcome of the one `requests.post` call of `ai_medical_report`, at the
network boundary: either a raised exception (connection failure or
timeout), or a response with a status code and the result of extracting
`json()["choices"][0]["message"]["content"]` (`none` when any step of
that extraction raises on a malformed body). -/
inductive NetOutcome where
  | exn : NetOutcome
  | resp : ℤ → Option String → NetOutcome
deriving DecidableEq

/-- Decimal rendering of a nonnegative number of hundredths, dropping a
trailing zero digit as CPython float repr does. -/
def centsStr (cents : ℤ) : String :=
  if cents % 100 = 0 then toString (cents / 100) ++ ".0"
  else if cents % 100 % 10 = 0 then
    toString (cents / 100) ++ "." ++ toString (cents % 100 / 10)
  else if cents % 100 < 10 then toString (cents / 100) ++ ".0" ++ toString (cents % 100)
  else toString (cents / 100) ++ "." ++ toString (cents % 100)

/-- CPython `str()` of a nonnegative float carrying at most two decimal
digits (the shortest round-trip decimal, as an f-string renders it),
computed from the value in hundredths. -/
def pyFloatStr (q : ℚ) : String :=
  centsStr ((q * 100).num / ((q * 100).den : ℤ))

theorem pyFloatStr_091 : pyFloatStr (91/100) = "0.91" := by
  have h : (91/100 * 100 : ℚ) = (91 : ℚ) := by norm_num
  unfold pyFloatStr
  rw [h]
  simp only [Rat.num_ofNat, Rat.den_ofNat]
  decide

/-- Separator of a rendered history line, `f"{date} : {result}"`. -/
def histSep : String := " : "

/-- Newline terminating each rendered history line. -/
def nl : String := "\n"

/-- The history transcript loop of the backend `/predict` route:
`history_text += f"{r[0]} : {r[1]}\n"` over the queried rows. -/
def historyText (rows : List (String × String)) : String :=
  rows.foldl (fun acc r => acc ++ r.1 ++ histSep ++ r.2 ++ nl) emptyStr

/-- Leading part of the advisory prompt f-string. -/
def promptHead : String := "\nYou are a lung specialist doctor.\n\nPatient Name: "

/-- Prompt part between the patient name and the history transcript. -/
def promptHistoryHead : String := "\n\nHistory:\n"

/-- Prompt part introducing the current result. -/
def promptCurrent : String := "\n\nCurrent Result: "

/-- Prompt part introducing the confidence. -/
def promptConfidence : String := "\nConfidence: "

/-- Trailing part of the advisory prompt f-string. -/
def promptTail : String := "\n\nExplain clearly:\n\n1. Before COVID lung condition\n2. After COVID impact\n3. Current lung health\n4. Possible problems\n5. Treatment advice\n6. Lifestyle guidance\n\nAdd medical disclaimer.\n"

/-- The advisory prompt of `ai_medical_report`, with the f-string split at
its interpolation points. -/
def ai_prompt (name result : String) (conf : ℚ) (history : String) : String :=
  promptHead ++ name ++ promptHistoryHead ++ history ++ promptCurrent ++ result
    ++ promptConfidence ++ pyFloatStr conf ++ promptTail

/-- The backend advisory call `ai_medical_report`: with no configured key
(unset or empty, Python falsy) it returns the not-configured fallback
before any network activity; otherwise the posted prompt is
`ai_prompt name result conf history` and the outcome is mapped as the
source does — raised exception to the service-error fallback, non-200
status to the unavailable fallback, failed content extraction (caught by
the bare `except`) to the service-error fallback, success to the content. -/
def ai_medical_report (key : Option String) (name result : String) (conf : ℚ)
    (history : String) (net : NetOutcome) : String :=
  if key = none ∨ key = some emptyStr then keyMissingMsg
  else
    match net with
    | NetOutcome.exn => aiErrorMsg
    | NetOutcome.resp st content =>
        if st ≠ 200 then aiUnavailableMsg
        else
          match content with
          | none => aiErrorMsg
          | some c => c

/-- The `/predict` route of `server.py` (demo variant).  `hasFile` models
`"file" in request.files`; `nameField` the optional form field; `fname`
the stored file name; `decoded` the result of `cv2.imread` on the saved
upload (`none` when the bytes decode to no image); `u1`,`u2` the two
pseudo-random draws consumed by `predict_ai`; `now` the formatted
timestamp.  Returns the HTTP response and the database after the request. -/
def srcPredict (db : DB) (hasFile : Bool) (nameField : Option String) (fname : String)
    (decoded : Option Img) (u1 u2 : ℚ) (now : String) : Resp × DB :=
  if hasFile = false then (⟨400, errBody errNoFile⟩, db)
  else
    match decoded with
    | none => (⟨400, errBody errInvalidImage⟩, db)
    | some _ =>
        let rc := predict_ai u1 u2
        let report := lungStatusHead ++ rc.1
        let heat := heatHead ++ fname
        let db2 := save db (nameField.getD unknownName) now rc.1 rc.2
          (uploadHead ++ fname) report
        (⟨200, [(predictionKey, JVal.s rc.1), (confidenceKey, JVal.q rc.2),
                (reportKey, JVal.s report), (treatmentKey, JVal.s treatmentText),
                (lifestyleKey, JVal.s lifestyleText), (heatmapKey, JVal.s heat)]⟩, db2)

/-- The `/predict` route of `backend/server.py`: as `srcPredict`, but it
additionally queries the patient's prior `(date, result)` rows before
saving, renders them through the history-transcript loop, obtains the
advisory narrative via `ai_medical_report` (configured key `key`, network
outcome `net`), and bundles it as `ai_doctor`. -/
def backendPredict (db : DB) (hasFile : Bool) (nameField : Option String) (fname : String)
    (decoded : Option Img) (u1 u2 : ℚ) (now : String) (key : Option String)
    (net : NetOutcome) : Resp × DB :=
  if hasFile = false then (⟨400, errBody errNoFile⟩, db)
  else
    match decoded with
    | none => (⟨400, errBody errInvalidImage⟩, db)
    | some _ =>
        let name := nameField.getD unknownName
        let rc := predict_ai u1 u2
        let report := lungStatusHead ++ rc.1
        let heat := heatHead ++ fname
        let rows := query_by_name db name
        let aiReport := ai_medical_report key name rc.1 rc.2 (historyText rows) net
        let db2 := save db name now rc.1 rc.2 (uploadHead ++ fname) report
        (⟨200, [(predictionKey, JVal.s rc.1), (confidenceKey, JVal.q rc.2),
                (reportKey, JVal.s report), (treatmentKey, JVal.s treatmentText),
                (lifestyleKey, JVal.s lifestyleText), (heatmapKey, JVal.s heat),
                (aiDoctorKey, JVal.s aiReport)]⟩, db2)

/-- Concrete strings used in witnesses and counterexamples. -/
def demoName : String := "Bob"

/-- Concrete file name used in witnesses and counterexamples. -/
def demoFname : String := "x.png"

/-- Concrete timestamp used in witnesses and counterexamples. -/
def demoDate : String := "01-01-2024 10:00"

/-- Concrete API key used in witnesses. -/
def demoKey : String := "sk"

theorem srcPredict_eval (db : DB) (nameField : Option String) (fname : String)
    (img : Img) (u1 u2 : ℚ) (now : String) :
    srcPredict db true nameField fname (some img) u1 u2 now
      = (⟨200, [(predictionKey, JVal.s (predict_ai u1 u2).1),
                (confidenceKey, JVal.q (predict_ai u1 u2).2),
                (reportKey, JVal.s (lungStatusHead ++ (predict_ai u1 u2).1)),
                (treatmentKey, JVal.s treatmentText),
                (lifestyleKey, JVal.s lifestyleText),
                (heatmapKey, JVal.s (heatHead ++ fname))]⟩,
         save db (nameField.getD unknownName) now (predict_ai u1 u2).1
           (predict_ai u1 u2).2 (uploadHead ++ fname)
           (lungStatusHead ++ (predict_ai u1 u2).1)) := rfl

theorem backendPredict_eval (db : DB) (nameField : Option String) (fname : String)
    (img : Img) (u1 u2 : ℚ) (now : String) (key : Option String) (net : NetOutcome) :
    backendPredict db true nameField fname (some img) u1 u2 now key net
      = (⟨200, [(predictionKey, JVal.s (predict_ai u1 u2).1),
                (confidenceKey, JVal.q (predict_ai u1 u2).2),
                (reportKey, JVal.s (lungStatusHead ++ (predict_ai u1 u2).1)),
                (treatmentKey, JVal.s treatmentText),
                (lifestyleKey, JVal.s lifestyleText),
                (heatmapKey, JVal.s (heatHead ++ fname)),
                (aiDoctorKey, JVal.s (ai_medical_report key (nameField.getD unknownName)
                  (predict_ai u1 u2).1 (predict_ai u1 u2).2
                  (historyText (query_by_name db (nameField.getD unknownName))) net))]⟩,
         save db (nameField.getD unknownName) now (predict_ai u1 u2).1
           (predict_ai u1 u2).2 (uploadHead ++ fname)
           (lungStatusHead ++ (predict_ai u1 u2).1)) := rfl

/-- C2 counterexample: on an undecodable upload the pipeline responds 400
with error `"Invalid Image"` and no diagnostic `details` field — not the
uniform `error: "Failed"` shape the claim asserts — and persists nothing. -/
theorem invalid_image_counterexample :
    (srcPredict DB.empty true (some demoName) demoFname none 0 0 demoDate).1
        = ⟨400, errBody errInvalidImage⟩
    ∧ ((srcPredict DB.empty true (some demoName) demoFname none 0 0 demoDate).1.body.lookup
          errorKey ≠ some (JVal.s errFailed))
    ∧ ((srcPredict DB.empty true (some demoName) demoFname none 0 0 demoDate).1.body.lookup
          detailsKey = none)
    ∧ (srcPredict DB.empty true (some demoName) demoFname none 0 0 demoDate).2 = DB.empty := by
  refine ⟨rfl, ?_, ?_, rfl⟩ <;> decide

/-- C2 amended: for every input whose bytes decode to no image, `/predict`
returns the 400 `"Invalid Image"` error response, persists no record, and
leaves the `list_all()` count unchanged (the `error: "Failed"` shape with
a diagnostic message is produced only by the catch-all exception handler,
which the decode-validation path does not take). -/
theorem invalid_image_aborts (db : DB) (nameField : Option String) (fname : String)
    (u1 u2 : ℚ) (now : String) :
    srcPredict db true nameField fname none u1 u2 now
        = (⟨400, errBody errInvalidImage⟩, db)
    ∧ (list_all (srcPredict db true nameField fname none u1 u2 now).2).length
        = (list_all db).length :=
  ⟨rfl, rfl⟩

/-- C10: the demo classification is independent of the decoded pixel grid —
for any two decoded images and the same random-source state, both pipeline
variants produce identical responses and identical database states, so in
particular the identical (label, confidence) pair; `predict_ai` never
reads the grid. -/
theorem classifier_ignores_image (db : DB) (nameField : Option String) (fname : String)
    (img1 img2 : Img) (u1 u2 : ℚ) (now : String) (key : Option String) (net : NetOutcome) :
    srcPredict db true nameField fname (some img1) u1 u2 now
        = srcPredict db true nameField fname (some img2) u1 u2 now
    ∧ backendPredict db true nameField fname (some img1) u1 u2 now key net
        = backendPredict db true nameField fname (some img2) u1 u2 now key net :=
  ⟨rfl, rfl⟩

/-- C4: with no configured credential (unset or empty key) the advisory
call returns the explicit not-configured fallback for every combination of
name, result, confidence and history, and its value is independent of
anything the network could have answered — the call is skipped. -/
theorem advisory_not_configured (key : Option String)
    (h : key = none ∨ key = some emptyStr) (n res : String) (conf : ℚ) (hist : String)
    (net net2 : NetOutcome) :
    ai_medical_report key n res conf hist net = keyMissingMsg
    ∧ ai_medical_report key n res conf hist net
        = ai_medical_report key n res conf hist net2 := by
  unfold ai_medical_report
  rw [if_pos h]
  rw [if_pos h]
  exact ⟨rfl, rfl⟩

/-- Witness for C4 with an absent key. -/
theorem advisory_not_configured_witness :
    ((none : Option String) = none ∨ (none : Option String) = some emptyStr)
    ∧ (ai_medical_report none demoName normalLabel 0 emptyStr NetOutcome.exn = keyMissingMsg
       ∧ ai_medical_report none demoName normalLabel 0 emptyStr NetOutcome.exn
           = ai_medical_report none demoName normalLabel 0 emptyStr
               (NetOutcome.resp 200 (some demoName))) :=
  ⟨Or.inl rfl,
    advisory_not_configured none (Or.inl rfl) demoName normalLabel 0 emptyStr
      NetOutcome.exn (NetOutcome.resp 200 (some demoName))⟩

/-- The fixed fallback strings of the advisory component. -/
def advisoryFallbacks : List String := [keyMissingMsg, aiUnavailableMsg, aiErrorMsg]

theorem ai_medical_report_eval_noKey (key : Option String)
    (h : key = none ∨ key = some emptyStr) (n res : String) (conf : ℚ) (hist : String)
    (net : NetOutcome) :
    ai_medical_report key n res conf hist net = keyMissingMsg := by
  unfold ai_medical_report
  rw [if_pos h]

theorem ai_medical_report_eval_exn (key : Option String)
    (h : ¬ (key = none ∨ key = some emptyStr)) (n res : String) (conf : ℚ) (hist : String) :
    ai_medical_report key n res conf hist NetOutcome.exn = aiErrorMsg := by
  unfold ai_medical_report
  rw [if_neg h]

theorem ai_medical_report_eval_err (key : Option String)
    (h : ¬ (key = none ∨ key = some emptyStr)) (n res : String) (conf : ℚ) (hist : String)
    (st : ℤ) (content : Option String) (hst : ¬ st = 200) :
    ai_medical_report key n res conf hist (NetOutcome.resp st content) = aiUnavailableMsg := by
  unfold ai_medical_report
  rw [if_neg h]
  show (if st ≠ 200 then aiUnavailableMsg
      else match content with | none => aiErrorMsg | some c => c) = aiUnavailableMsg
  rw [if_pos hst]

theorem ai_medical_report_eval_malformed (key : Option String)
    (h : ¬ (key = none ∨ key = some emptyStr)) (n res : String) (conf : ℚ) (hist : String) :
    ai_medical_report key n res conf hist (NetOutcome.resp 200 none) = aiErrorMsg := by
  unfold ai_medical_report
  rw [if_neg h]
  rfl

/-- Boolean advisory failure mode: no credential configured, raised
network exception, non-200 status, or malformed response body. -/
def advisoryFailureB (key : Option String) (net : NetOutcome) : Bool :=
  key == none || key == some emptyStr ||
    (match net with
     | NetOutcome.exn => true
     | NetOutcome.resp st content => st != 200 || content == none)

/-- C3: the advisory call is total and in every failure mode — missing
credential, network exception or timeout, non-2xx status, malformed
response body — returns one of its fixed non-empty fallback strings; the
enclosing pipeline run completes (status 200) for every network outcome,
and when the service is configured but answers HTTP 500 the `/predict`
response still bundles prediction, confidence and report, with the
`ai_doctor` field equal to the fixed unavailable-fallback. -/
theorem advisory_failures_degrade (key : Option String) (n res : String) (conf : ℚ)
    (hist : String) (net : NetOutcome) (db : DB) (k fname now : String)
    (nameField : Option String) (img : Img) (u1 u2 : ℚ) (body : Option String) :
    (advisoryFailureB key net = true →
        ai_medical_report key n res conf hist net ∈ advisoryFallbacks
        ∧ ai_medical_report key n res conf hist net ≠ emptyStr)
    ∧ (∀ net2 : NetOutcome,
        (backendPredict db true nameField fname (some img) u1 u2 now key net2).1.status = 200)
    ∧ (¬ k = emptyStr →
        (backendPredict db true nameField fname (some img) u1 u2 now (some k)
            (NetOutcome.resp 500 body)).1
          = ⟨200, [(predictionKey, JVal.s (predict_ai u1 u2).1),
                   (confidenceKey, JVal.q (predict_ai u1 u2).2),
                   (reportKey, JVal.s (lungStatusHead ++ (predict_ai u1 u2).1)),
                   (treatmentKey, JVal.s treatmentText),
                   (lifestyleKey, JVal.s lifestyleText),
                   (heatmapKey, JVal.s (heatHead ++ fname)),
                   (aiDoctorKey, JVal.s aiUnavailableMsg)]⟩) := by
  refine ⟨?_, ?_, ?_⟩
  · intro hfail
    by_cases hk : key = none ∨ key = some emptyStr
    · rw [ai_medical_report_eval_noKey key hk n res conf hist net]
      exact ⟨by decide, by decide⟩
    · have hk1 : ¬ key = none := fun hx => hk (Or.inl hx)
      have hk2 : ¬ key = some emptyStr := fun hx => hk (Or.inr hx)
      cases net with
      | exn =>
          rw [ai_medical_report_eval_exn key hk n res conf hist]
          exact ⟨by decide, by decide⟩
      | resp st content =>
          simp only [advisoryFailureB, Bool.or_eq_true, beq_iff_eq, hk1, hk2,
            bne_iff_ne, ne_eq, decide_eq_true_eq, false_or] at hfail
          by_cases hst : st = 200
          · subst hst
            have hcontent : content = none := by
              rcases hfail with hfail | hfail
              · exact absurd rfl hfail
              · exact hfail
            subst hcontent
            rw [ai_medical_report_eval_malformed key hk n res conf hist]
            exact ⟨by decide, by decide⟩
          · rw [ai_medical_report_eval_err key hk n res conf hist st content hst]
            exact ⟨by decide, by decide⟩
  · intro net2
    rw [show (backendPredict db true nameField fname (some img) u1 u2 now key net2).1.status
        = 200 from rfl]
  · intro hk
    have hkc : ¬ ((some k : Option String) = none ∨ (some k : Option String) = some emptyStr) := by
      rintro (hx | hx)
      · exact Option.noConfusion hx
      · exact hk (Option.some_inj.mp hx)
    have hv : ∀ nm res2 : String, ∀ cf : ℚ, ∀ hist2 : String,
        ai_medical_report (some k) nm res2 cf hist2 (NetOutcome.resp 500 body)
          = aiUnavailableMsg := by
      intro nm res2 cf hist2
      exact ai_medical_report_eval_err (some k) hkc nm res2 cf hist2 500 body (by decide)
    rw [backendPredict_eval, hv]

/-- Witness for C3: exception outcome with no key, and the HTTP-500
scenario with a configured key. -/
theorem advisory_failures_degrade_witness :
    (advisoryFailureB none NetOutcome.exn = true)
    ∧ (ai_medical_report none demoName normalLabel 0 emptyStr NetOutcome.exn
          ∈ advisoryFallbacks
       ∧ ai_medical_report none demoName normalLabel 0 emptyStr NetOutcome.exn ≠ emptyStr)
    ∧ (∀ net2 : NetOutcome,
        (backendPredict DB.empty true (some demoName) demoFname (some [[(0, 0, 0)]])
            0 0 demoDate none net2).1.status = 200)
    ∧ (¬ demoKey = emptyStr)
    ∧ ((backendPredict DB.empty true (some demoName) demoFname (some [[(0, 0, 0)]])
          0 0 demoDate (some demoKey) (NetOutcome.resp 500 none)).1
        = ⟨200, [(predictionKey, JVal.s (predict_ai 0 0).1),
                 (confidenceKey, JVal.q (predict_ai 0 0).2),
                 (reportKey, JVal.s (lungStatusHead ++ (predict_ai 0 0).1)),
                 (treatmentKey, JVal.s treatmentText),
                 (lifestyleKey, JVal.s lifestyleText),
                 (heatmapKey, JVal.s (heatHead ++ demoFname)),
                 (aiDoctorKey, JVal.s aiUnavailableMsg)]⟩) :=
  ⟨by decide,
    (advisory_failures_degrade none demoName normalLabel 0 emptyStr NetOutcome.exn
        DB.empty demoKey demoFname demoDate (some demoName) [[(0, 0, 0)]] 0 0 none).1
      (by decide),
    (advisory_failures_degrade none demoName normalLabel 0 emptyStr NetOutcome.exn
        DB.empty demoKey demoFname demoDate (some demoName) [[(0, 0, 0)]] 0 0 none).2.1,
    by decide,
    (advisory_failures_degrade none demoName normalLabel 0 emptyStr NetOutcome.exn
        DB.empty demoKey demoFname demoDate (some demoName) [[(0, 0, 0)]] 0 0 none).2.2
      (by decide)⟩

/-- C9 counterexample: a completed demo-variant response bundles exactly
prediction, confidence, report, treatment, lifestyle and heatmap — it
contains no advisory-narrative field at all, contrary to the claim that
every completed response bundles the advisory narrative or its fallback. -/
theorem response_bundle_counterexample :
    ((srcPredict DB.empty true (some demoName) demoFname (some [[(0, 0, 0)]])
          0 0 demoDate).1.body.map Prod.fst)
      = [predictionKey, confidenceKey, reportKey, treatmentKey, lifestyleKey, heatmapKey]
    ∧ ((srcPredict DB.empty true (some demoName) demoFname (some [[(0, 0, 0)]])
          0 0 demoDate).1.body.lookup aiDoctorKey) = none := by
  refine ⟨?_, ?_⟩ <;> decide

/-- C9 amended: for every successfully decoded input the completed
response of the backend variant bundles exactly the classification label,
its confidence, the templated report `"Lung Status : <label>"`, the fixed
static treatment/lifestyle pair, the overlay reference and the advisory
narrative or its fallback; the demo variant bundles exactly the same
fields minus the advisory narrative. -/
theorem completed_response_bundle (db : DB) (nameField : Option String) (fname : String)
    (img : Img) (u1 u2 : ℚ) (now : String) (key : Option String) (net : NetOutcome) :
    (srcPredict db true nameField fname (some img) u1 u2 now).1
      = ⟨200, [(predictionKey, JVal.s (predict_ai u1 u2).1),
               (confidenceKey, JVal.q (predict_ai u1 u2).2),
               (reportKey, JVal.s (lungStatusHead ++ (predict_ai u1 u2).1)),
               (treatmentKey, JVal.s treatmentText),
               (lifestyleKey, JVal.s lifestyleText),
               (heatmapKey, JVal.s (heatHead ++ fname))]⟩
    ∧ (backendPredict db true nameField fname (some img) u1 u2 now key net).1
      = ⟨200, [(predictionKey, JVal.s (predict_ai u1 u2).1),
               (confidenceKey, JVal.q (predict_ai u1 u2).2),
               (reportKey, JVal.s (lungStatusHead ++ (predict_ai u1 u2).1)),
               (treatmentKey, JVal.s treatmentText),
               (lifestyleKey, JVal.s lifestyleText),
               (heatmapKey, JVal.s (heatHead ++ fname)),
               (aiDoctorKey, JVal.s (ai_medical_report key (nameField.getD unknownName)
                 (predict_ai u1 u2).1 (predict_ai u1 u2).2
                 (historyText (query_by_name db (nameField.getD unknownName))) net))]⟩ :=
  ⟨rfl, rfl⟩

/- ===== C6: prompt and history transcript ===== -/

/-- Concrete patient name of the C6 scenario. -/
def aliceName : String := "Alice"

/-- Concrete history date of the C6 scenario. -/
def dateA : String := "01-01-2024"

/-- Concrete history date of the C6 scenario. -/
def dateB : String := "02-02-2024"

/-- Spec-level rendering of the history transcript: one line per entry,
`"<date> : <label>"`, in exactly the order of the queried rows. -/
def renderedHistory : List (String × String) → String
  | [] => emptyStr
  | r :: t => r.1 ++ histSep ++ r.2 ++ nl ++ renderedHistory t

theorem historyText_acc (rows : List (String × String)) : ∀ acc : String,
    rows.foldl (fun a r => a ++ r.1 ++ histSep ++ r.2 ++ nl) acc
      = acc ++ renderedHistory rows := by
  induction rows with
  | nil =>
      intro acc
      rw [List.foldl_nil]
      show acc = acc ++ emptyStr
      exact (String.append_empty acc).symm
  | cons r t ih =>
      intro acc
      rw [List.foldl_cons, ih]
      show acc ++ r.1 ++ histSep ++ r.2 ++ nl ++ renderedHistory t
        = acc ++ (r.1 ++ histSep ++ r.2 ++ nl ++ renderedHistory t)
      simp [String.append_assoc]

set_option maxRecDepth 40000 in
/-- C6: the history transcript embedded in the advisory prompt renders
each prior entry as `"<date> : <label>"`, one per line, in exactly the
order returned by the history query; and in the concrete scenario — prior
entries `(01-01-2024, Normal)` and `(02-02-2024, Benign)`, new result
`Malignant` at confidence 0.91 — the prompt contains both prior lines in
that order, followed later by the current result and confidence. -/
theorem advisory_prompt_history (rows : List (String × String)) :
    historyText rows = renderedHistory rows
    ∧ (∃ s1 s2 : String,
        ai_prompt aliceName malignantLabel (91/100)
            (historyText [(dateA, normalLabel), (dateB, benignLabel)])
          = s1 ++ "01-01-2024 : Normal\n" ++ "02-02-2024 : Benign\n" ++ s2
        ∧ ∃ t1 t2 : String,
            s2 = t1 ++ "Current Result: Malignant\nConfidence: 0.91" ++ t2) := by
  constructor
  · unfold historyText
    rw [historyText_acc rows emptyStr]
    exact String.empty_append _
  · refine ⟨promptHead ++ aliceName ++ promptHistoryHead,
      promptCurrent ++ malignantLabel ++ promptConfidence ++ "0.91" ++ promptTail,
      ?_, "\n\n", promptTail, by decide⟩
    unfold ai_prompt
    rw [pyFloatStr_091]
    decide

/- ===== C5: heatmap overlay (`make_heatmap`) ===== -/

/-- Width of a grid: length of its first row. -/
def widthOf (g : List (List α)) : ℕ := (g.headD []).length

/-- Row accessor (empty row when out of range). -/
def rowAt (g : List (List α)) (y : ℕ) : List α := (g.get? y).getD []

/-- Pixel accessor (zero pixel when out of range). -/
def pixAt (g : Img) (y x : ℕ) : Pixel := ((rowAt g y).get? x).getD (0, 0, 0)

/-- Well-formed decoded image: nonempty, rectangular. -/
def WellFormed (g : Img) : Prop :=
  0 < g.length ∧ ∀ row ∈ g, row.length = widthOf g

instance (g : Img) : Decidable (WellFormed g) := by
  unfold WellFormed
  infer_instance

/-- The `cv2.cvtColor(img, COLOR_BGR2GRAY)` per-pixel luminance for 8-bit
BGR data: OpenCV fixed-point weights 1868/9617/4899 with a 14-bit
descale, `(1868*B + 9617*G + 4899*R + 8192) >> 14`. -/
def grayPix (p : Pixel) : ℕ :=
  (1868 * p.1 + 9617 * p.2.1 + 4899 * p.2.2 + 8192) / 16384

/-- Grayscale image of the BGR input. -/
def grayImg (g : Img) : List (List ℕ) := g.map (fun row => row.map grayPix)

/-- OpenCV default border `BORDER_REFLECT_101`: a triangular wave of
period `2*(n-1)` over the valid index range. -/
def borderReflect101 (n : ℕ) (i : ℤ) : ℕ :=
  if n ≤ 1 then 0
  else
    (if i % (2 * ((n : ℤ) - 1)) < (n : ℤ) then i % (2 * ((n : ℤ) - 1))
     else 2 * ((n : ℤ) - 1) - i % (2 * ((n : ℤ) - 1))).toNat

/-- Border-extended access into a gray image. -/
def grayAt (g : List (List ℕ)) (y x : ℤ) : ℕ :=
  (((g.get? (borderReflect101 g.length y)).getD []).get?
      (borderReflect101 (widthOf g) x)).getD 0

/-- The `sigma = 0` convention of `cv2.GaussianBlur`: the standard
deviation derived from the kernel size, `0.3*((ksize-1)*0.5 - 1) + 0.8`. -/
def sigmaFromKsize (k : ℕ) : ℚ := 3/10 * (((k : ℚ) - 1) * (1/2) - 1) + 4/5

/-- Unnormalised Gaussian kernel coefficient of `cv2.getGaussianKernel`:
`exp(-(i - (k-1)/2)^2 / (2*sigma^2))`. -/
noncomputable def gaussCoeff (k : ℕ) (sigma : ℝ) (i : ℕ) : ℝ :=
  Real.exp (-(((i : ℝ) - ((k : ℝ) - 1) / 2) ^ 2) / (2 * sigma ^ 2))

/-- Normalisation constant of the Gaussian kernel. -/
noncomputable def gaussSum (k : ℕ) (sigma : ℝ) : ℝ :=
  ∑ i ∈ Finset.range k, gaussCoeff k sigma i

open Classical in
/-- OpenCV `cvRound`: round half-to-even to the nearest integer. -/
noncomputable def rheR (x : ℝ) : ℤ :=
  if x - ⌊x⌋ < 1/2 then ⌊x⌋
  else if 1/2 < x - ⌊x⌋ then ⌊x⌋ + 1
  else if ⌊x⌋ % 2 = 0 then ⌊x⌋ else ⌊x⌋ + 1

/-- OpenCV `saturate_cast<uchar>`: clamp an integer into `[0, 255]`. -/
def satCast255 (z : ℤ) : ℕ := (min 255 (max 0 z)).toNat

/-- Value of the separable 21×21 Gaussian convolution (sigma derived by
the `sigma = 0` convention, reflect-101 borders) at position `(y, x)`. -/
noncomputable def blurVal (g : List (List ℕ)) (y x : ℕ) : ℝ :=
  (∑ dy ∈ Finset.range 21, ∑ dx ∈ Finset.range 21,
      gaussCoeff 21 ((sigmaFromKsize 21 : ℚ) : ℝ) dy *
        gaussCoeff 21 ((sigmaFromKsize 21 : ℚ) : ℝ) dx *
        (grayAt g ((y : ℤ) + (dy : ℤ) - 10) ((x : ℤ) + (dx : ℤ) - 10) : ℝ))
    / (gaussSum 21 ((sigmaFromKsize 21 : ℚ) : ℝ)) ^ 2

/-- Blurred 8-bit value: rounded and saturated, as `cv2.GaussianBlur`
produces for an 8-bit input. -/
noncomputable def blurByte (g : List (List ℕ)) (y x : ℕ) : ℕ :=
  satCast255 (rheR (blurVal g y x))

/-- The blurred gray image, same dimensions as the input. -/
noncomputable def blurGray (g : List (List ℕ)) : List (List ℕ) :=
  (List.range g.length).map (fun y => (List.range (widthOf g)).map (fun x => blurByte g y x))

/-- Clamp into the unit interval. -/
def clamp01 (x : ℚ) : ℚ := max 0 (min 1 x)

/-- One channel of the jet-style colormap of `cv2.applyColorMap`
(`COLORMAP_JET`): the classic tent map `clamp(1.5 - |4x - c|)` with
centres `c = 1, 2, 3` for blue, green, red over intensity `x ∈ [0,1]`. -/
def jetChan (x c : ℚ) : ℚ := clamp01 (3/2 - |4 * x - c|)

/-- Jet-colormapped BGR pixel of an 8-bit gray value. -/
def jetPix (v : ℕ) : Pixel :=
  ((rhalfeven (255 * jetChan ((v : ℚ) / 255) 1)).toNat,
   (rhalfeven (255 * jetChan ((v : ℚ) / 255) 2)).toNat,
   (rhalfeven (255 * jetChan ((v : ℚ) / 255) 3)).toNat)

/-- One channel of `cv2.addWeighted(img, 0.6, heat, 0.4, 0)` on 8-bit
data: round `0.6*a + 0.4*b` and saturate into the valid range. -/
def blendChan (a b : ℕ) : ℕ :=
  satCast255 (rhalfeven (3/5 * (a : ℚ) + 2/5 * (b : ℚ)))

/-- Per-pixel alpha composite of original and colormapped pixels. -/
def blendPix (p q : Pixel) : Pixel :=
  (blendChan p.1 q.1, blendChan p.2.1 q.2.1, blendChan p.2.2 q.2.2)

/-- The pixel grid written by `make_heatmap`: gray conversion, 21×21
Gaussian blur with derived sigma, jet colormap, then the 0.6/0.4
alpha composite with the original image. -/
noncomputable def heatGrid (img : Img) : Img :=
  List.zipWith (fun r hrow => List.zipWith blendPix r hrow)
    img ((blurGray (grayImg img)).map (fun row => row.map jetPix))

theorem widthOf_grayImg (img : Img) (h : 0 < img.length) :
    widthOf (grayImg img) = widthOf img := by
  cases img with
  | nil => simp at h
  | cons r t => simp [grayImg, widthOf]

theorem grayImg_length (img : Img) : (grayImg img).length = img.length :=
  List.length_map _ _

theorem blurGray_length (g : List (List ℕ)) : (blurGray g).length = g.length := by
  unfold blurGray
  rw [List.length_map, List.length_range]

theorem heatGrid_spec (img : Img) (h : WellFormed img) :
    (heatGrid img).length = img.length
    ∧ (∀ y, y < img.length → (rowAt (heatGrid img) y).length = widthOf img)
    ∧ (∀ y x, y < img.length → x < widthOf img →
        pixAt (heatGrid img) y x
          = blendPix (pixAt img y x) (jetPix (blurByte (grayImg img) y x))) := by
  obtain ⟨hpos, hrows⟩ := h
  have hgraylen : (grayImg img).length = img.length := grayImg_length img
  have hgw : widthOf (grayImg img) = widthOf img := widthOf_grayImg img hpos
  have hlen : (heatGrid img).length = img.length := by
    unfold heatGrid
    rw [List.length_zipWith, List.length_map, blurGray_length, hgraylen, Nat.min_self]
  have hrowfact : ∀ y (hy : y < img.length),
      (heatGrid img).get? y
        = some (List.zipWith blendPix (img.get ⟨y, hy⟩)
            (((List.range (widthOf (grayImg img))).map
              (fun xx => blurByte (grayImg img) y xx)).map jetPix)) := by
    intro y hy
    have hyg : y < (grayImg img).length := by rw [hgraylen]; exact hy
    have hblur : (blurGray (grayImg img)).get? y
        = some ((List.range (widthOf (grayImg img))).map
            (fun xx => blurByte (grayImg img) y xx)) := by
      unfold blurGray
      rw [List.get?_map, List.get?_range hyg]
      rfl
    have hmap : ((blurGray (grayImg img)).map (fun rowb => rowb.map jetPix)).get? y
        = some (((List.range (widthOf (grayImg img))).map
            (fun xx => blurByte (grayImg img) y xx)).map jetPix) := by
      rw [List.get?_map, hblur]
      rfl
    unfold heatGrid
    rw [List.get?_zipWith', List.get?_eq_get hy, hmap]
    rfl
  refine ⟨hlen, ?_, ?_⟩
  · intro y hy
    have hr := hrowfact y hy
    have hmem : img.get ⟨y, hy⟩ ∈ img := List.get_mem img y hy
    have hrl : (img.get ⟨y, hy⟩).length = widthOf img := hrows _ hmem
    unfold rowAt
    rw [hr]
    show (List.zipWith blendPix (img.get ⟨y, hy⟩) _).length = widthOf img
    rw [List.length_zipWith, hrl, List.length_map, List.length_map, List.length_range,
      hgw, Nat.min_self]
  · intro y x hy hx
    have hr := hrowfact y hy
    have hmem : img.get ⟨y, hy⟩ ∈ img := List.get_mem img y hy
    have hrl : (img.get ⟨y, hy⟩).length = widthOf img := hrows _ hmem
    have hx' : x < (img.get ⟨y, hy⟩).length := by rw [hrl]; exact hx
    have hxg : x < widthOf (grayImg img) := by rw [hgw]; exact hx
    have hrx : (img.get ⟨y, hy⟩).get? x = some ((img.get ⟨y, hy⟩).get ⟨x, hx'⟩) :=
      List.get?_eq_get hx'
    have hbx : (((List.range (widthOf (grayImg img))).map
          (fun xx => blurByte (grayImg img) y xx)).map jetPix).get? x
        = some (jetPix (blurByte (grayImg img) y x)) := by
      rw [List.get?_map, List.get?_map, List.get?_range hxg]
      rfl
    have hpix : (((img.get? y).getD []).get? x).getD ((0, 0, 0) : Pixel)
        = (img.get ⟨y, hy⟩).get ⟨x, hx'⟩ := by
      rw [List.get?_eq_get hy]
      show ((img.get ⟨y, hy⟩).get? x).getD (0, 0, 0) = _
      rw [hrx]
      rfl
    unfold pixAt rowAt
    rw [hr]
    show ((List.zipWith blendPix (img.get ⟨y, hy⟩) _).get? x).getD (0, 0, 0) = _
    rw [List.get?_zipWith', hrx, hbx, hpix]
    rfl

/-- C5: on every well-formed pixel grid the overlay of `make_heatmap`
keeps the dimensions and 3-channel shape, and every output pixel is the
clamped rounded alpha composite `0.6*original + 0.4*colormapped` of the
original pixel with the jet-colormapped, 21×21-Gaussian-blurred (sigma
derived from the kernel size), grayscale-converted image; the function
consumes no randomness, so equal inputs give bit-identical overlays. -/
theorem overlay_structure (img : Img) (h : WellFormed img) :
    (heatGrid img).length = img.length
    ∧ (∀ y, y < img.length → (rowAt (heatGrid img) y).length = widthOf img)
    ∧ (∀ y x, y < img.length → x < widthOf img →
        pixAt (heatGrid img) y x
          = (blendChan (pixAt img y x).1 (jetPix (blurByte (grayImg img) y x)).1,
             blendChan (pixAt img y x).2.1 (jetPix (blurByte (grayImg img) y x)).2.1,
             blendChan (pixAt img y x).2.2 (jetPix (blurByte (grayImg img) y x)).2.2))
    ∧ (∀ a b : ℕ, blendChan a b = satCast255 (rhalfeven (3/5 * (a : ℚ) + 2/5 * (b : ℚ))))
    ∧ (∀ img2 : Img, img2 = img → heatGrid img2 = heatGrid img) := by
  obtain ⟨h1, h2, h3⟩ := heatGrid_spec img h
  refine ⟨h1, h2, ?_, fun a b => rfl, fun img2 he => by rw [he]⟩
  intro y x hy hx
  rw [h3 y x hy hx]
  rfl

/-- Witness for C5 at a concrete 1×1 grid. -/
theorem overlay_structure_witness :
    WellFormed [[(0, 0, 0)]]
    ∧ ((heatGrid [[(0, 0, 0)]]).length = ([[(0, 0, 0)]] : Img).length
       ∧ (∀ y, y < ([[(0, 0, 0)]] : Img).length →
            (rowAt (heatGrid [[(0, 0, 0)]]) y).length = widthOf ([[(0, 0, 0)]] : Img))
       ∧ (∀ y x, y < ([[(0, 0, 0)]] : Img).length → x < widthOf ([[(0, 0, 0)]] : Img) →
            pixAt (heatGrid [[(0, 0, 0)]]) y x
              = (blendChan (pixAt [[(0, 0, 0)]] y x).1
                   (jetPix (blurByte (grayImg [[(0, 0, 0)]]) y x)).1,
                 blendChan (pixAt [[(0, 0, 0)]] y x).2.1
                   (jetPix (blurByte (grayImg [[(0, 0, 0)]]) y x)).2.1,
                 blendChan (pixAt [[(0, 0, 0)]] y x).2.2
                   (jetPix (blurByte (grayImg [[(0, 0, 0)]]) y x)).2.2))
       ∧ (∀ a b : ℕ, blendChan a b = satCast255 (rhalfeven (3/5 * (a : ℚ) + 2/5 * (b : ℚ))))
       ∧ (∀ img2 : Img, img2 = [[(0, 0, 0)]] → heatGrid img2 = heatGrid [[(0, 0, 0)]])) :=
  ⟨by decide, overlay_structure [[(0, 0, 0)]] (by decide)⟩

end My
